import Mathlib

/-
Verification of the awsutils helper library (modules awsutils/filesystem.py and
awsutils/sqs.py) against its natural-language specification.

Modelling conventions (shallow embedding):
- Every SDK call made by a helper is an input to the Lean function embedding that
  helper: the caller supplies the outcome of the call, either a normal return or a
  raised exception, via the type Except Exc.
- Exceptions are modelled by the inductive type Exc: clientError corresponds to
  botocore ClientError (carrying the HTTP status of its attached response and a
  message), botoCoreError to botocore BotoCoreError, osError to OSError (in
  Python 3, IOError is an alias of OSError, so a raised IOError is an osError),
  and retryError to tenacity RetryError, raised when a retry policy is exhausted.
- A raise statement in the source becomes an Except.error result; raising
  ClientError with a message becomes Except.error (Exc.clientError 0 msg).
- Logger calls are modelled, where a claim depends on them, as a list of
  (level, message) pairs appended in program order; messages are the source
  format strings with the interpolated values elided.
- Python None is modelled by PyVal.none; Python truthiness of such values is the
  function PyVal.truthy.
-/

namespace AwsUtils

/-- Exceptions distinguished by the library code. -/
inductive Exc where
  | clientError (status : Nat) (msg : String)
  | botoCoreError
  | osError
  | retryError
deriving DecidableEq, Repr

/-- True exactly for botocore ClientError values. -/
def Exc.isClientError : Exc → Bool
  | .clientError _ _ => true
  | _ => false

instance {ε α : Type} [DecidableEq ε] [DecidableEq α] : DecidableEq (Except ε α) :=
  fun a b =>
    match a, b with
    | .error e1, .error e2 =>
        if h : e1 = e2 then isTrue (by rw [h]) else isFalse (by intro hh; cases hh; exact h rfl)
    | .ok a1, .ok a2 =>
        if h : a1 = a2 then isTrue (by rw [h]) else isFalse (by intro hh; cases hh; exact h rfl)
    | .error _, .ok _ => isFalse (by intro hh; cases hh)
    | .ok _, .error _ => isFalse (by intro hh; cases hh)

/-- The outcome of a computation is a raised ClientError. -/
def raisedClientError {α : Type} (x : Except Exc α) : Prop :=
  ∃ s m, x = Except.error (Exc.clientError s m)

/-- Log levels of the Python logging module used by the library. -/
inductive LogLevel where
  | debug
  | info
  | error
  | critical
deriving DecidableEq, Repr

/-- A log is the list of (level, message) pairs emitted, in order. -/
abbrev Log := List (LogLevel × String)

/-- Python values whose truthiness the library inspects: None and booleans. -/
inductive PyVal where
  | none
  | bool (b : Bool)
deriving DecidableEq, Repr

/-- Python truthiness: None is falsy, a boolean is itself. -/
def PyVal.truthy : PyVal → Bool
  | .none => false
  | .bool b => b

namespace Sqs

/-- An SQS SDK response dictionary, keeping the fields the library reads: the
HTTP status code under ResponseMetadata, the optional QueueUrl entry, and
whether the Successful key is present. -/
structure SqsResponse where
  httpStatus : Nat
  queueUrl : Option String := none
  hasSuccessful : Bool := false
deriving DecidableEq, Repr

/-- Embedding of get_queue (awsutils/sqs.py): the argument is the outcome of
sqs.get_queue_url. Any exception from the call is caught, logged and turned
into a raised ClientError; a non-200 status or a missing QueueUrl key also
raises a ClientError; otherwise the queue url is returned. -/
def get_queue (call : Except Exc SqsResponse) : Except Exc String × Log :=
  let l0 : Log := [(LogLevel.debug, "in get SQS url")]
  match call with
  | .error _ =>
      (Except.error (Exc.clientError 0 "no sqs url"),
       l0 ++ [(LogLevel.error, "get_queue_url failed due to:")])
  | .ok response =>
      let l1 := l0 ++ [(LogLevel.debug, "queue url get response:")]
      if response.httpStatus ≠ 200 then
        (Except.error (Exc.clientError 0 "get sqs url: HTTPStatus != 200"), l1)
      else
        match response.queueUrl with
        | none =>
            (Except.error (Exc.clientError 0 "no sqs queue url returned"), l1)
        | some url =>
            (Except.ok url, l1 ++ [(LogLevel.info, "sqs url:")])

/-- Embedding of send_message (awsutils/sqs.py): the argument is the outcome of
sqs.send_message_batch. Any exception is caught, logged and turned into a
raised ClientError; a non-200 status or a missing Successful key raises a
ClientError; otherwise the response is returned. -/
def send_message (call : Except Exc SqsResponse) : Except Exc SqsResponse × Log :=
  let l0 : Log := [(LogLevel.debug, "in send_message - to SQS url")]
  match call with
  | .error _ =>
      (Except.error (Exc.clientError 0 "sqs send message failure"),
       l0 ++ [(LogLevel.error, "sqs send message failed:")])
  | .ok response =>
      let l1 := l0 ++ [(LogLevel.debug, "send message response:")]
      if response.httpStatus ≠ 200 then
        (Except.error (Exc.clientError 0 "send message to sqs: HTTPStatus != 200"), l1)
      else
        if response.hasSuccessful then
          (Except.ok response, l1)
        else
          (Except.error (Exc.clientError 0 "message send failure to sqs"), l1)

/-- Embedding of get_msg (awsutils/sqs.py): the argument is the outcome of
sqs.receive_message. Only ClientError is caught (logged, then a bare
ClientError is re-raised); other exceptions propagate. A non-200 status
raises a ClientError; otherwise the response is returned. -/
def get_msg (call : Except Exc SqsResponse) : Except Exc SqsResponse × Log :=
  let l0 : Log := [(LogLevel.debug, "in process_msg - get message from SQS")]
  match call with
  | .error e =>
      if e.isClientError then
        (Except.error (Exc.clientError 0 ""),
         l0 ++ [(LogLevel.error, "sqs message receive - ClientError - url:")])
      else
        (Except.error e, l0)
  | .ok response =>
      let l1 := l0 ++ [(LogLevel.debug, "sqs: - message RECEIVE response:")]
      if response.httpStatus ≠ 200 then
        (Except.error (Exc.clientError 0 ""),
         l1 ++ [(LogLevel.error, "sqs: - message received HTTPStatus != 200")])
      else
        (Except.ok response, l1)

/-- Embedding of del_message (awsutils/sqs.py): the argument is the outcome of
sqs.delete_message. Only ClientError is caught, and a bare ClientError is
re-raised without any log statement; other exceptions propagate. A non-200
status logs an error and raises a ClientError; otherwise None is returned. -/
def del_message (call : Except Exc SqsResponse) : Except Exc Unit × Log :=
  let l0 : Log := [(LogLevel.debug, "in del_message - delete SQS message")]
  match call with
  | .error e =>
      if e.isClientError then
        (Except.error (Exc.clientError 0 ""), l0)
      else
        (Except.error e, l0)
  | .ok response =>
      let l1 := l0 ++ [(LogLevel.debug, "sqs: - msg del response:")]
      if response.httpStatus ≠ 200 then
        (Except.error (Exc.clientError 0 "sqs: - message delete HTTPStatus != 200"),
         l1 ++ [(LogLevel.error, "HTTPStatus error -retrying")])
      else
        (Except.ok (), l1 ++ [(LogLevel.debug, "sqs: - MSG DELETED SUCCESSFULLY")])

/-- Result of purge_sqs: either the SDK response object, or the placeholder
string consisting of a single space that the except branch substitutes. -/
inductive PurgeResult where
  | resp (r : SqsResponse)
  | blank
deriving DecidableEq, Repr

/-- Embedding of purge_sqs (awsutils/sqs.py): the argument is the outcome of
client.purge_queue. A ClientError is caught and logged, and the placeholder
string is returned normally; other exceptions propagate. A non-200 status
raises a ClientError; otherwise the response is returned. -/
def purge_sqs (call : Except Exc SqsResponse) : Except Exc PurgeResult × Log :=
  let l0 : Log := [(LogLevel.debug, ">>>> in async purge_sqs - purge the whole SQS")]
  match call with
  | .error e =>
      if e.isClientError then
        (Except.ok PurgeResult.blank, l0 ++ [(LogLevel.error, "client error")])
      else
        (Except.error e, l0)
  | .ok response =>
      if response.httpStatus ≠ 200 then
        (Except.error (Exc.clientError 0 "sqs purge HTTPStatus != 200"), l0)
      else
        (Except.ok (PurgeResult.resp response), l0 ++ [(LogLevel.debug, "q purge response:")])

end Sqs

namespace Filesystem

/-- Embedding of bucket_access (awsutils/filesystem.py): the argument is the
outcome of s3.head_bucket. A ClientError is caught (logged critical) and the
function returns false; no exception returns true; any other exception, such
as a BotoCoreError, propagates to the caller, since only ClientError is
caught. -/
def bucket_access (headBucket : Except Exc Unit) : Except Exc Bool :=
  match headBucket with
  | .ok _ => Except.ok true
  | .error e => if e.isClientError then Except.ok false else Except.error e

/-- Embedding of key_access (awsutils/filesystem.py): the argument is the
outcome of s3.head_object; the handling is identical to bucket_access. -/
def key_access (headObject : Except Exc Unit) : Except Exc Bool :=
  match headObject with
  | .ok _ => Except.ok true
  | .error e => if e.isClientError then Except.ok false else Except.error e

/-- Embedding of the remove_return_value decorator (awsutils/filesystem.py):
the wrapper calls the function, discards its result and returns None;
exceptions propagate unchanged. -/
def remove_return_value {α β : Type} (f : α → Except Exc β) : α → Except Exc PyVal :=
  fun a =>
    match f a with
    | .ok _ => Except.ok PyVal.none
    | .error e => Except.error e

/-- Embedding of s3_bucket_access: remove_return_value applied to
bucket_access, as in the source. -/
def s3_bucket_access : Except Exc Unit → Except Exc PyVal :=
  remove_return_value bucket_access

/-- Embedding of s3_key_access: remove_return_value applied to key_access,
as in the source. -/
def s3_key_access : Except Exc Unit → Except Exc PyVal :=
  remove_return_value key_access

/-- The SDK call outcomes consumed by one run of the deprecated download:
head_bucket, head_object, download_file, and whether os.path.isfile finds the
local file afterwards. -/
structure DownloadWorld where
  headBucket : Except Exc Unit
  headKey : Except Exc Unit
  downloadFile : Except Exc Unit
  isfile : Bool

/-- Embedding of the deprecated download (awsutils/filesystem.py): both access
checks are run first; if both return true, download_file is attempted, where
only a ClientError is caught (success becomes false); afterwards a missing
local file forces success to false. If a check fails the function returns
false. Exceptions other than ClientError propagate. -/
def download (w : DownloadWorld) : Except Exc Bool :=
  match bucket_access w.headBucket with
  | .error e => Except.error e
  | .ok sourceFlag =>
      match key_access w.headKey with
      | .error e => Except.error e
      | .ok keyFlag =>
          if sourceFlag && keyFlag then
            match w.downloadFile with
            | .error e =>
                if e.isClientError then Except.ok false else Except.error e
            | .ok _ =>
                if w.isfile then Except.ok true else Except.ok false
          else
            Except.ok false

/-- Embedding of the deprecated upload (awsutils/filesystem.py): the argument
is the outcome of s3.upload_file. ClientError and OSError are caught and the
function returns false; no exception returns true; anything else, such as a
BotoCoreError, propagates. -/
def upload (uploadFile : Except Exc Unit) : Except Exc Bool :=
  match uploadFile with
  | .ok _ => Except.ok true
  | .error (Exc.clientError _ _) => Except.ok false
  | .error Exc.osError => Except.ok false
  | .error e => Except.error e

/-- The SDK call outcomes consumed by one run of the deprecated move_core:
upload_file (inside upload), head_object (inside s3_key_access) and
delete_object. -/
structure MoveCoreWorld where
  uploadFile : Except Exc Unit
  headTargetKey : Except Exc Unit
  deleteObj : Except Exc Unit

/-- Result of move_core: the returned flag or a propagated exception, plus
whether the delete_object SDK call was attempted. -/
structure McOut where
  result : Except Exc Bool
  deleteCalled : Bool
deriving DecidableEq, Repr

/-- Embedding of the deprecated move_core (awsutils/filesystem.py): the upload
flag comes from upload, the key flag is the value of s3_key_access, and the
Python condition upload_flag and key_flag uses the truthiness of that value.
delete_object is attempted only when the condition holds; its ClientError is
caught, leaving delete_flag false. The returned move_success is the
conjunction of the three flags. -/
def move_core (w : MoveCoreWorld) : McOut :=
  match upload w.uploadFile with
  | .error e => ⟨Except.error e, false⟩
  | .ok uploadFlag =>
      match s3_key_access w.headTargetKey with
      | .error e => ⟨Except.error e, false⟩
      | .ok keyFlag =>
          if uploadFlag && keyFlag.truthy then
            match w.deleteObj with
            | .error e =>
                if e.isClientError then
                  ⟨Except.ok (uploadFlag && keyFlag.truthy && false), true⟩
                else
                  ⟨Except.error e, true⟩
            | .ok _ =>
                ⟨Except.ok (uploadFlag && keyFlag.truthy && true), true⟩
          else
            ⟨Except.ok (uploadFlag && keyFlag.truthy && false), false⟩

/-- The SDK call outcomes consumed by one run of the deprecated move: the three
precondition head calls, then the calls made by move_core. -/
structure MoveWorld where
  headSource : Except Exc Unit
  headSourceKey : Except Exc Unit
  headTarget : Except Exc Unit
  core : MoveCoreWorld

/-- Result of move: the returned abort flag or a propagated exception, whether
move_core (and hence the upload_file SDK call) was invoked, and whether the
delete_object SDK call was attempted. -/
structure MvOut where
  result : Except Exc Bool
  coreCalled : Bool
  deleteCalled : Bool
deriving DecidableEq, Repr

/-- Embedding of the deprecated move (awsutils/filesystem.py): the three
precondition checks run unconditionally in order; if all return true,
move_core runs and abort is the negation of its result; otherwise abort is
true and move_core is not invoked. Exceptions from the checks propagate. -/
def move (w : MoveWorld) : MvOut :=
  match bucket_access w.headSource with
  | .error e => ⟨Except.error e, false, false⟩
  | .ok sourceFlag =>
      match key_access w.headSourceKey with
      | .error e => ⟨Except.error e, false, false⟩
      | .ok keyFlag =>
          match bucket_access w.headTarget with
          | .error e => ⟨Except.error e, false, false⟩
          | .ok targetFlag =>
              if sourceFlag && keyFlag && targetFlag then
                let mc := move_core w.core
                match mc.result with
                | .error e => ⟨Except.error e, true, mc.deleteCalled⟩
                | .ok moveSuccess => ⟨Except.ok (!moveSuccess), true, mc.deleteCalled⟩
              else
                ⟨Except.ok true, false, false⟩

/-- The SDK call outcomes consumed by one execution of the s3_download body:
download_file and the os.path.isfile check on the local file. -/
structure S3DlWorld where
  downloadFile : Except Exc Unit
  isfile : Bool

/-- Embedding of the body of s3_download (awsutils/filesystem.py), before the
retry decorator: only BotoCoreError is caught around download_file (logged,
then a BotoCoreError is re-raised); a ClientError or OSError propagates
uncaught; a missing local file afterwards raises IOError, which in Python 3
is OSError. -/
def s3_download_body (w : S3DlWorld) : Except Exc Unit :=
  match w.downloadFile with
  | .error Exc.botoCoreError => Except.error Exc.botoCoreError
  | .error e => Except.error e
  | .ok _ => if w.isfile then Except.ok () else Except.error Exc.osError

/-- Embedding of the body of s3_upload (awsutils/filesystem.py), before the
retry decorator: BotoCoreError is caught and re-raised as BotoCoreError,
OSError is caught, logged and re-raised as OSError; a ClientError propagates
uncaught. -/
def s3_upload_body (uploadFile : Except Exc Unit) : Except Exc Unit :=
  match uploadFile with
  | .error Exc.botoCoreError => Except.error Exc.botoCoreError
  | .error Exc.osError => Except.error Exc.osError
  | .error e => Except.error e
  | .ok _ => Except.ok ()

/-- The SDK call outcomes consumed by one execution of the s3_move body: the
outcome of the inner (decorated) s3_upload call, the head_object call made
through s3_key_access, and delete_object. -/
structure S3MoveWorld where
  upload : Except Exc Unit
  headTargetKey : Except Exc Unit
  deleteObj : Except Exc Unit

/-- Result of one execution of the s3_move body: its outcome, and whether the
delete_object SDK call was attempted. -/
structure SmOut where
  result : Except Exc Unit
  deleteCalled : Bool
deriving DecidableEq, Repr

/-- Embedding of the body of s3_move (awsutils/filesystem.py), before the retry
decorator: a BotoCoreError, ClientError or OSError from s3_upload is caught
and the local raiser turns it into an IOError (OSError in Python 3); the
verification step calls s3_key_access, catching BotoCoreError and ClientError
the same way; delete_object is then attempted, with ClientError and
BotoCoreError again turned into IOError. Other exceptions propagate. -/
def s3_move_body (w : S3MoveWorld) : SmOut :=
  match w.upload with
  | .error (Exc.clientError _ _) => ⟨Except.error Exc.osError, false⟩
  | .error Exc.botoCoreError => ⟨Except.error Exc.osError, false⟩
  | .error Exc.osError => ⟨Except.error Exc.osError, false⟩
  | .error e => ⟨Except.error e, false⟩
  | .ok _ =>
      match s3_key_access w.headTargetKey with
      | .error (Exc.clientError _ _) => ⟨Except.error Exc.osError, false⟩
      | .error Exc.botoCoreError => ⟨Except.error Exc.osError, false⟩
      | .error e => ⟨Except.error e, false⟩
      | .ok _ =>
          match w.deleteObj with
          | .error (Exc.clientError _ _) => ⟨Except.error Exc.osError, true⟩
          | .error Exc.botoCoreError => ⟨Except.error Exc.osError, true⟩
          | .error e => ⟨Except.error e, true⟩
          | .ok _ => ⟨Except.ok (), true⟩

/-- The retry condition retry_if_exception_type(IOError), equally
retry_if_exception_type(OSError): in Python 3 IOError is an alias of OSError,
so both conditions retry exactly the osError exception. -/
def retriesOnOsError : Exc → Bool
  | Exc.osError => true
  | _ => false

/-- Execution trace of a tenacity retry loop with retry condition pol and at
most fuel attempts: the list of outcomes of the attempts actually executed,
in order. A successful attempt or a non-retriable exception ends the loop; a
retriable exception is re-attempted while attempts remain. -/
def retryTrace {α : Type} (pol : Exc → Bool) (body : Nat → Except Exc α) :
    Nat → Nat → List (Except Exc α)
  | _, 0 => []
  | i, fuel + 1 =>
      match body i with
      | .ok a => [Except.ok a]
      | .error e =>
          if pol e = true ∧ 0 < fuel then Except.error e :: retryTrace pol body (i + 1) fuel
          else [Except.error e]

/-- The value the retry wrapper delivers to its caller, given the trace: the
result of the last attempt, except that a still-retriable final exception
means the attempt budget was exhausted and tenacity raises RetryError. -/
def retryFinish {α : Type} (pol : Exc → Bool) (t : List (Except Exc α)) : Except Exc α :=
  match t.getLast? with
  | none => Except.error Exc.retryError
  | some (.ok a) => Except.ok a
  | some (.error e) => if pol e then Except.error Exc.retryError else Except.error e

/-- The attempts executed by the decorated s3_download, whose retry policy is
retry_if_exception_type(IOError) with stop_after_attempt(3); the world ws
gives the SDK outcomes seen by each attempt. -/
def s3_downloadAttempts (ws : Nat → S3DlWorld) : List (Except Exc Unit) :=
  retryTrace retriesOnOsError (fun i => s3_download_body (ws i)) 0 3

/-- Embedding of the decorated s3_download (awsutils/filesystem.py). -/
def s3_download (ws : Nat → S3DlWorld) : Except Exc Unit :=
  retryFinish retriesOnOsError (s3_downloadAttempts ws)

/-- The attempts executed by the decorated s3_upload, whose retry policy is
retry_if_exception_type(OSError) with stop_after_attempt(2). -/
def s3_uploadAttempts (ws : Nat → Except Exc Unit) : List (Except Exc Unit) :=
  retryTrace retriesOnOsError (fun i => s3_upload_body (ws i)) 0 2

/-- Embedding of the decorated s3_upload (awsutils/filesystem.py). -/
def s3_upload (ws : Nat → Except Exc Unit) : Except Exc Unit :=
  retryFinish retriesOnOsError (s3_uploadAttempts ws)

/-- The attempts executed by the decorated s3_move, whose retry policy is
retry_if_exception_type(IOError) with stop_after_attempt(3). -/
def s3_moveAttempts (ws : Nat → S3MoveWorld) : List (Except Exc Unit) :=
  retryTrace retriesOnOsError (fun i => (s3_move_body (ws i)).result) 0 3

/-- Embedding of the decorated s3_move (awsutils/filesystem.py). -/
def s3_move (ws : Nat → S3MoveWorld) : Except Exc Unit :=
  retryFinish retriesOnOsError (s3_moveAttempts ws)

end Filesystem

namespace B64

/-- ASCII code of the standard base64 alphabet character for a sextet value. -/
def encChar (n : Nat) : Nat :=
  if n < 26 then 65 + n
  else if n < 52 then 71 + n
  else if n < 62 then n - 4
  else if n = 62 then 43
  else 47

/-- Sextet value of a standard base64 alphabet ASCII code. -/
def decChar (c : Nat) : Nat :=
  if 65 ≤ c ∧ c ≤ 90 then c - 65
  else if 97 ≤ c ∧ c ≤ 122 then c - 71
  else if 48 ≤ c ∧ c ≤ 57 then c + 4
  else if c = 43 then 62
  else if c = 47 then 63
  else 0

/-- Modelled from the Python standard library: base64.b64encode of a byte
string with the standard alphabet, = padding and no line breaks; bytes and
output characters are ASCII codes as Nat. -/
def b64encode : List Nat → List Nat
  | b1 :: b2 :: b3 :: rest =>
      encChar (b1 / 4) :: encChar (b1 % 4 * 16 + b2 / 16)
        :: encChar (b2 % 16 * 4 + b3 / 64) :: encChar (b3 % 64) :: b64encode rest
  | [b1, b2] =>
      [encChar (b1 / 4), encChar (b1 % 4 * 16 + b2 / 16), encChar (b2 % 16 * 4), 61]
  | [b1] => [encChar (b1 / 4), encChar (b1 % 4 * 16), 61, 61]
  | [] => []

/-- Modelled from the Python standard library: base64.b64decode on a
well-formed base64 input, four characters per group, with = padding only at
the end of the final group (61 is the ASCII code of the = character). -/
def b64decode : List Nat → List Nat
  | c1 :: c2 :: c3 :: c4 :: rest =>
      if c3 = 61 then
        [decChar c1 * 4 + decChar c2 / 16]
      else if c4 = 61 then
        [decChar c1 * 4 + decChar c2 / 16, decChar c2 % 16 * 16 + decChar c3 / 4]
      else
        (decChar c1 * 4 + decChar c2 / 16)
          :: (decChar c2 % 16 * 16 + decChar c3 / 4)
          :: (decChar c3 % 4 * 64 + decChar c4)
          :: b64decode rest
  | _ => []

end B64

/-- Embedding of decode_b64 (awsutils/sqs.py): it applies base64.b64decode to
its argument and returns the result. -/
def Sqs.decode_b64 (base64_obj : List Nat) : List Nat :=
  B64.b64decode base64_obj

section Helpers

open Sqs Filesystem

/-- Every value accepted by remove_return_value is None. -/
theorem remove_return_value_ok {α β : Type} (f : α → Except Exc β) (a : α) (v : PyVal)
    (h : Filesystem.remove_return_value f a = Except.ok v) : v = PyVal.none := by
  unfold Filesystem.remove_return_value at h
  cases hfa : f a <;> rw [hfa] at h <;> simp_all

/-- An exception propagated by bucket_access is never a ClientError. -/
theorem bucket_access_error (h : Except Exc Unit) (e : Exc)
    (he : Filesystem.bucket_access h = Except.error e) : e.isClientError = false := by
  unfold Filesystem.bucket_access at he
  cases h with
  | ok _ => simp at he
  | error e0 =>
      by_cases hc : e0.isClientError <;> simp [hc] at he
      subst he
      simpa using hc

/-- An exception propagated by key_access is never a ClientError. -/
theorem key_access_error (h : Except Exc Unit) (e : Exc)
    (he : Filesystem.key_access h = Except.error e) : e.isClientError = false := by
  unfold Filesystem.key_access at he
  cases h with
  | ok _ => simp at he
  | error e0 =>
      by_cases hc : e0.isClientError <;> simp [hc] at he
      subst he
      simpa using hc

/-- If the verification head call inside the s3_move body yields a value (it
does not raise), the body always reaches the delete_object call. -/
theorem s3_move_body_deleteCalled (hk del : Except Exc Unit) (v : PyVal)
    (hv : Filesystem.s3_key_access hk = Except.ok v) :
    (Filesystem.s3_move_body ⟨Except.ok (), hk, del⟩).deleteCalled = true := by
  cases del with
  | ok u => simp [Filesystem.s3_move_body, hv]
  | error e => cases e <;> simp [Filesystem.s3_move_body, hv]

end Helpers

section Claims

open Sqs Filesystem

/-- C1 counterexample: the claim is false as stated. purge_sqs catches the
ClientError raised by the purge call, logs it, and returns the placeholder
string normally, so the error is swallowed rather than re-raised; and
del_message re-raises the ClientError without logging anything beyond the
initial debug line. -/
theorem client_errors_current_helpers_counterexample :
    (Sqs.purge_sqs (Except.error (Exc.clientError 500 "err"))).1
      = Except.ok Sqs.PurgeResult.blank
    ∧ (Sqs.del_message (Except.error (Exc.clientError 500 "err"))).2
      = [(LogLevel.debug, "in del_message - delete SQS message")] := by
  constructor <;> rfl

/-- C1 amended: for every ClientError raised by the underlying SDK call,
get_queue, send_message and get_msg log an error and raise a ClientError;
del_message raises a ClientError without logging; s3_download and s3_upload
let the ClientError propagate to the caller; s3_move converts it to an
IOError, which after the three retry attempts surfaces as a tenacity
RetryError, and a ClientError from delete_object likewise makes the body
raise; none of these ever turn the error into a success return. purge_sqs,
however, logs the ClientError and swallows it, returning the placeholder
string. -/
theorem client_errors_current_helpers_amended (st : Nat) (m : String) (isf : Bool) :
    raisedClientError (Sqs.get_queue (Except.error (Exc.clientError st m))).1
    ∧ (∃ p ∈ (Sqs.get_queue (Except.error (Exc.clientError st m))).2, p.1 = LogLevel.error)
    ∧ raisedClientError (Sqs.send_message (Except.error (Exc.clientError st m))).1
    ∧ (∃ p ∈ (Sqs.send_message (Except.error (Exc.clientError st m))).2, p.1 = LogLevel.error)
    ∧ raisedClientError (Sqs.get_msg (Except.error (Exc.clientError st m))).1
    ∧ (∃ p ∈ (Sqs.get_msg (Except.error (Exc.clientError st m))).2, p.1 = LogLevel.error)
    ∧ raisedClientError (Sqs.del_message (Except.error (Exc.clientError st m))).1
    ∧ Filesystem.s3_download (fun _ => ⟨Except.error (Exc.clientError st m), isf⟩)
        = Except.error (Exc.clientError st m)
    ∧ Filesystem.s3_upload (fun _ => Except.error (Exc.clientError st m))
        = Except.error (Exc.clientError st m)
    ∧ Filesystem.s3_move
        (fun _ => ⟨Except.error (Exc.clientError st m), Except.ok (), Except.ok ()⟩)
        = Except.error Exc.retryError
    ∧ (Filesystem.s3_move_body ⟨Except.ok (), Except.ok (), Except.error (Exc.clientError st m)⟩).result
        = Except.error Exc.osError
    ∧ (Sqs.purge_sqs (Except.error (Exc.clientError st m))).1 = Except.ok Sqs.PurgeResult.blank
    ∧ (∃ p ∈ (Sqs.purge_sqs (Except.error (Exc.clientError st m))).2, p.1 = LogLevel.error) := by
  refine ⟨⟨0, "no sqs url", rfl⟩, ?_, ⟨0, "sqs send message failure", rfl⟩, ?_,
    ⟨0, "", rfl⟩, ?_, ⟨0, "", rfl⟩, rfl, rfl, rfl, rfl, rfl, ?_⟩
  · exact ⟨(LogLevel.error, "get_queue_url failed due to:"), by simp [Sqs.get_queue], rfl⟩
  · exact ⟨(LogLevel.error, "sqs send message failed:"), by simp [Sqs.send_message], rfl⟩
  · exact ⟨(LogLevel.error, "sqs message receive - ClientError - url:"),
      by simp [Sqs.get_msg, Exc.isClientError], rfl⟩
  · exact ⟨(LogLevel.error, "client error"), by simp [Sqs.purge_sqs, Exc.isClientError], rfl⟩

/-- C1 witness: the amended theorem evaluated at a concrete ClientError. -/
theorem client_errors_current_helpers_witness :
    (Sqs.purge_sqs (Except.error (Exc.clientError 500 "boom"))).1
      = Except.ok Sqs.PurgeResult.blank
    ∧ Filesystem.s3_download (fun _ => ⟨Except.error (Exc.clientError 500 "boom"), true⟩)
      = Except.error (Exc.clientError 500 "boom") :=
  ⟨(client_errors_current_helpers_amended 500 "boom" true).2.2.2.2.2.2.2.2.2.2.2.1,
   (client_errors_current_helpers_amended 500 "boom" true).2.2.2.2.2.2.2.1⟩

/-- C3: for each of get_queue, send_message, get_msg and del_message, when the
SDK call returns a response whose HTTPStatusCode is not 200 the helper raises
a ClientError, and when the status is 200 no status-code-based error is
raised: get_msg returns the response and del_message returns None, while
get_queue and send_message never raise their status-check ClientError
(their only remaining failure is the missing-key check). -/
theorem http_status_check (r : Sqs.SqsResponse) :
    (r.httpStatus ≠ 200 →
      raisedClientError (Sqs.get_queue (Except.ok r)).1
      ∧ raisedClientError (Sqs.send_message (Except.ok r)).1
      ∧ raisedClientError (Sqs.get_msg (Except.ok r)).1
      ∧ raisedClientError (Sqs.del_message (Except.ok r)).1)
    ∧ (r.httpStatus = 200 →
      (Sqs.get_queue (Except.ok r)).1
          ≠ Except.error (Exc.clientError 0 "get sqs url: HTTPStatus != 200")
      ∧ (Sqs.send_message (Except.ok r)).1
          ≠ Except.error (Exc.clientError 0 "send message to sqs: HTTPStatus != 200")
      ∧ (Sqs.get_msg (Except.ok r)).1 = Except.ok r
      ∧ (Sqs.del_message (Except.ok r)).1 = Except.ok ()) := by
  constructor
  · intro hne
    refine ⟨⟨0, "get sqs url: HTTPStatus != 200", ?_⟩,
      ⟨0, "send message to sqs: HTTPStatus != 200", ?_⟩, ⟨0, "", ?_⟩,
      ⟨0, "sqs: - message delete HTTPStatus != 200", ?_⟩⟩ <;>
      simp [Sqs.get_queue, Sqs.send_message, Sqs.get_msg, Sqs.del_message, hne]
  · intro h200
    refine ⟨?_, ?_, ?_, ?_⟩ <;>
      simp [Sqs.get_queue, Sqs.send_message, Sqs.get_msg, Sqs.del_message, h200]
    · cases r.queueUrl <;> simp
    · cases hs : r.hasSuccessful <;> simp

/-- C3 witness: the status check evaluated at a concrete non-200 response and a
concrete 200 response. -/
theorem http_status_check_witness :
    raisedClientError (Sqs.get_queue (Except.ok ⟨500, none, false⟩)).1
    ∧ (Sqs.get_msg (Except.ok ⟨200, none, false⟩)).1 = Except.ok ⟨200, none, false⟩ :=
  ⟨((http_status_check ⟨500, none, false⟩).1 (by decide)).1,
   ((http_status_check ⟨200, none, false⟩).2 rfl).2.2.1⟩

/-- C6: get_queue returns exactly the QueueUrl value of the response when the
SDK call raises nothing, the status is 200 and the key is present; if the
call raises, or the status is not 200, or the key is absent, it raises a
ClientError instead. -/
theorem get_queue_contract (call : Except Exc Sqs.SqsResponse) :
    (∀ r u, call = Except.ok r → r.httpStatus = 200 → r.queueUrl = some u →
        (Sqs.get_queue call).1 = Except.ok u)
    ∧ (∀ e, call = Except.error e → raisedClientError (Sqs.get_queue call).1)
    ∧ (∀ r, call = Except.ok r → r.httpStatus ≠ 200 →
        raisedClientError (Sqs.get_queue call).1)
    ∧ (∀ r, call = Except.ok r → r.queueUrl = none →
        raisedClientError (Sqs.get_queue call).1) := by
  refine ⟨?_, ?_, ?_, ?_⟩
  · intro r u hc h200 hurl
    subst hc
    simp [Sqs.get_queue, h200, hurl]
  · intro e hc
    subst hc
    exact ⟨0, "no sqs url", rfl⟩
  · intro r hc hne
    subst hc
    exact ⟨0, "get sqs url: HTTPStatus != 200", by simp [Sqs.get_queue, hne]⟩
  · intro r hc hurl
    subst hc
    by_cases h200 : r.httpStatus = 200
    · exact ⟨0, "no sqs queue url returned", by simp [Sqs.get_queue, h200, hurl]⟩
    · exact ⟨0, "get sqs url: HTTPStatus != 200", by simp [Sqs.get_queue, h200]⟩

/-- C6 witness: the contract evaluated at a concrete successful response and a
concrete missing-key response. -/
theorem get_queue_contract_witness :
    (Sqs.get_queue (Except.ok ⟨200, some "http://q", false⟩)).1 = Except.ok "http://q"
    ∧ raisedClientError (Sqs.get_queue (Except.ok ⟨200, none, false⟩)).1 :=
  ⟨(get_queue_contract (Except.ok ⟨200, some "http://q", false⟩)).1
      ⟨200, some "http://q", false⟩ "http://q" rfl rfl rfl,
   (get_queue_contract (Except.ok ⟨200, none, false⟩)).2.2.2 ⟨200, none, false⟩ rfl rfl⟩

/-- C9 counterexample: the claim is false as stated. When the head call raises
an exception that is not a ClientError, such as a BotoCoreError, the checks
do not return a boolean at all: the exception propagates, because only
ClientError is caught. -/
theorem access_checks_counterexample :
    Filesystem.bucket_access (Except.error Exc.botoCoreError) ≠ Except.ok true
    ∧ Filesystem.bucket_access (Except.error Exc.botoCoreError) ≠ Except.ok false
    ∧ Filesystem.key_access (Except.error Exc.botoCoreError) ≠ Except.ok true
    ∧ Filesystem.key_access (Except.error Exc.botoCoreError) ≠ Except.ok false := by
  decide

/-- C9 amended: bucket_access and key_access return True exactly when the head
call raises no exception and False exactly when it raises a ClientError; a
ClientError is never propagated to the caller, but any other exception, such
as a BotoCoreError, propagates instead of producing a boolean. -/
theorem access_checks_amended (h : Except Exc Unit) :
    (Filesystem.bucket_access h = Except.ok true ↔ h = Except.ok ())
    ∧ (Filesystem.bucket_access h = Except.ok false
        ↔ ∃ s m, h = Except.error (Exc.clientError s m))
    ∧ ¬ raisedClientError (Filesystem.bucket_access h)
    ∧ (Filesystem.key_access h = Except.ok true ↔ h = Except.ok ())
    ∧ (Filesystem.key_access h = Except.ok false
        ↔ ∃ s m, h = Except.error (Exc.clientError s m))
    ∧ ¬ raisedClientError (Filesystem.key_access h) := by
  cases h with
  | ok u =>
      cases u
      simp [Filesystem.bucket_access, Filesystem.key_access, raisedClientError]
  | error e =>
      cases e <;>
        simp [Filesystem.bucket_access, Filesystem.key_access, raisedClientError,
          Exc.isClientError]

/-- C9 witness: the amended characterization evaluated at concrete head-call
outcomes. -/
theorem access_checks_witness :
    Filesystem.bucket_access (Except.ok ()) = Except.ok true
    ∧ Filesystem.key_access (Except.error (Exc.clientError 404 "no such key"))
        = Except.ok false :=
  ⟨(access_checks_amended (Except.ok ())).1.mpr rfl,
   (access_checks_amended (Except.error (Exc.clientError 404 "no such key"))).2.2.2.2.1.mpr
     ⟨404, "no such key", rfl⟩⟩

/-- C4 counterexample: the claim is false as stated. s3_key_access does not
always return None: a BotoCoreError from the head call propagates out of it,
and in s3_move this makes the post-upload verification step fail (the body
raises the IOError produced by raiser) even though s3_upload succeeded, so
delete_object is not attempted. -/
theorem decorated_checks_counterexample :
    Filesystem.s3_key_access (Except.error Exc.botoCoreError)
      = Except.error Exc.botoCoreError
    ∧ (Filesystem.s3_move_body
        ⟨Except.ok (), Except.error Exc.botoCoreError, Except.ok ()⟩).result
      = Except.error Exc.osError
    ∧ (Filesystem.s3_move_body
        ⟨Except.ok (), Except.error Exc.botoCoreError, Except.ok ()⟩).deleteCalled
      = false := by
  decide

/-- C4 amended: s3_bucket_access and s3_key_access never raise a ClientError,
and whenever they return they return None; in s3_move the post-upload
verification step can fail only when the head call raises a non-ClientError
exception such as a BotoCoreError, and delete_object is attempted whenever
s3_upload succeeded and the head call did not raise such an exception,
regardless of whether the target key is actually accessible. -/
theorem decorated_checks_amended (h : Except Exc Unit) (w : Filesystem.S3MoveWorld) :
    ¬ raisedClientError (Filesystem.s3_bucket_access h)
    ∧ ¬ raisedClientError (Filesystem.s3_key_access h)
    ∧ (∀ v, Filesystem.s3_bucket_access h = Except.ok v → v = PyVal.none)
    ∧ (∀ v, Filesystem.s3_key_access h = Except.ok v → v = PyVal.none)
    ∧ (w.upload = Except.ok () →
        (w.headTargetKey = Except.ok ()
          ∨ ∃ s m, w.headTargetKey = Except.error (Exc.clientError s m)) →
        (Filesystem.s3_move_body w).deleteCalled = true)
    ∧ (w.upload = Except.ok () → (Filesystem.s3_move_body w).deleteCalled = false →
        ∃ e, w.headTargetKey = Except.error e ∧ e.isClientError = false) := by
  refine ⟨?_, ?_, ?_, ?_, ?_, ?_⟩
  · rintro ⟨s, m, hsm⟩
    cases h with
    | ok u =>
        simp [Filesystem.s3_bucket_access, Filesystem.remove_return_value,
          Filesystem.bucket_access] at hsm
    | error e =>
        cases e <;>
          simp [Filesystem.s3_bucket_access, Filesystem.remove_return_value,
            Filesystem.bucket_access, Exc.isClientError] at hsm
  · rintro ⟨s, m, hsm⟩
    cases h with
    | ok u =>
        simp [Filesystem.s3_key_access, Filesystem.remove_return_value,
          Filesystem.key_access] at hsm
    | error e =>
        cases e <;>
          simp [Filesystem.s3_key_access, Filesystem.remove_return_value,
            Filesystem.key_access, Exc.isClientError] at hsm
  · intro v hv
    exact remove_return_value_ok _ _ _ hv
  · intro v hv
    exact remove_return_value_ok _ _ _ hv
  · intro hu hh
    rcases w with ⟨up, hk, del⟩
    simp only at hu hh ⊢
    subst hu
    rcases hh with hh | ⟨s, m, hh⟩ <;> subst hh
    · exact s3_move_body_deleteCalled (Except.ok ()) del PyVal.none rfl
    · exact s3_move_body_deleteCalled (Except.error (Exc.clientError s m)) del PyVal.none rfl
  · intro hu hd
    rcases w with ⟨up, hk, del⟩
    simp only at hu hd ⊢
    subst hu
    cases hk with
    | ok u =>
        cases u
        rw [s3_move_body_deleteCalled (Except.ok ()) del PyVal.none rfl] at hd
        cases hd
    | error e =>
        by_cases he : e.isClientError = true
        · cases e with
          | clientError s m =>
              rw [s3_move_body_deleteCalled (Except.error (Exc.clientError s m)) del
                PyVal.none rfl] at hd
              cases hd
          | botoCoreError => simp [Exc.isClientError] at he
          | osError => simp [Exc.isClientError] at he
          | retryError => simp [Exc.isClientError] at he
        · exact ⟨e, rfl, by simpa using he⟩

/-- C4 witness: with the upload successful and the target key inaccessible (the
head call raises a 404 ClientError), delete_object is still attempted. -/
theorem decorated_checks_witness :
    (Filesystem.s3_move_body
      ⟨Except.ok (), Except.error (Exc.clientError 404 "no such key"),
        Except.ok ()⟩).deleteCalled = true :=
  (decorated_checks_amended (Except.ok ())
      ⟨Except.ok (), Except.error (Exc.clientError 404 "no such key"), Except.ok ()⟩).2.2.2.2.1
    rfl (Or.inr ⟨404, "no such key", rfl⟩)

/-- C5 counterexample: the claim is false as stated. When upload_file raises a
BotoCoreError, the deprecated upload does not catch it, so move_core and
move propagate the exception instead of returning a flag: on that input move
does not return True. -/
theorem deprecated_move_counterexample :
    (Filesystem.move_core ⟨Except.error Exc.botoCoreError, Except.ok (), Except.ok ()⟩).result
      = Except.error Exc.botoCoreError
    ∧ (Filesystem.move ⟨Except.ok (), Except.ok (), Except.ok (),
        ⟨Except.error Exc.botoCoreError, Except.ok (), Except.ok ()⟩⟩).result
      = Except.error Exc.botoCoreError := by
  decide

/-- C5 amended: move_core never invokes delete_object, because its target-key
verification flag is the None returned by s3_key_access, which is falsy;
whenever move_core returns a flag, that flag is False; and whenever the
deprecated move returns a flag, that flag is abort = True. (A non-ClientError
exception from an SDK call propagates instead of producing a flag.) -/
theorem deprecated_move_amended (wc : Filesystem.MoveCoreWorld) (w : Filesystem.MoveWorld) :
    (Filesystem.move_core wc).deleteCalled = false
    ∧ (∀ b, (Filesystem.move_core wc).result = Except.ok b → b = false)
    ∧ (∀ b, (Filesystem.move w).result = Except.ok b → b = true) := by
  have hcore : ∀ wc0 : Filesystem.MoveCoreWorld,
      (Filesystem.move_core wc0).deleteCalled = false
      ∧ ∀ b, (Filesystem.move_core wc0).result = Except.ok b → b = false := by
    intro wc0
    unfold Filesystem.move_core
    cases hup : Filesystem.upload wc0.uploadFile with
    | error e => simp
    | ok uploadFlag =>
        cases hka : Filesystem.s3_key_access wc0.headTargetKey with
        | error e => simp
        | ok v =>
            have hv : v = PyVal.none := remove_return_value_ok _ _ _ hka
            subst hv
            simp [PyVal.truthy]
  refine ⟨(hcore wc).1, (hcore wc).2, ?_⟩
  intro b hb
  have hshape : (Filesystem.move w).result = Except.ok true
      ∨ ∃ e, (Filesystem.move w).result = Except.error e := by
    unfold Filesystem.move
    cases h1 : Filesystem.bucket_access w.headSource with
    | error e => exact Or.inr ⟨e, by simp [h1]⟩
    | ok sourceFlag =>
        cases h2 : Filesystem.key_access w.headSourceKey with
        | error e => exact Or.inr ⟨e, by simp [h1, h2]⟩
        | ok keyFlag =>
            cases h3 : Filesystem.bucket_access w.headTarget with
            | error e => exact Or.inr ⟨e, by simp [h1, h2, h3]⟩
            | ok targetFlag =>
                by_cases hf : (sourceFlag && keyFlag && targetFlag) = true
                · cases hmc : (Filesystem.move_core w.core).result with
                  | error e => exact Or.inr ⟨e, by simp [h1, h2, h3, hf, hmc]⟩
                  | ok ms =>
                      have hms := (hcore w.core).2 ms hmc
                      subst hms
                      exact Or.inl (by simp [h1, h2, h3, hf, hmc])
                · exact Or.inl (by simp [h1, h2, h3, hf])
  rcases hshape with hs | ⟨e, hs⟩
  · rw [hb] at hs
    injection hs
  · rw [hb] at hs
    cases hs

/-- C5 witness: on a world where every SDK call succeeds, move_core does not
call delete and the deprecated move returns abort = True. -/
theorem deprecated_move_witness :
    (Filesystem.move_core ⟨Except.ok (), Except.ok (), Except.ok ()⟩).deleteCalled = false
    ∧ (Filesystem.move ⟨Except.ok (), Except.ok (), Except.ok (),
        ⟨Except.ok (), Except.ok (), Except.ok ()⟩⟩).result = Except.ok true :=
  ⟨(deprecated_move_amended ⟨Except.ok (), Except.ok (), Except.ok ()⟩
      ⟨Except.ok (), Except.ok (), Except.ok (),
        ⟨Except.ok (), Except.ok (), Except.ok ()⟩⟩).1,
   by decide⟩

/-- C7 counterexample: the claim is false as stated. With both access checks
succeeding, download_file raising an OSError (hence no ClientError) and the
local file present, the claimed conditions for returning True hold, yet the
deprecated download neither returns True nor False: the OSError propagates,
because only ClientError is caught around download_file. -/
theorem deprecated_download_counterexample :
    Filesystem.download ⟨Except.ok (), Except.ok (), Except.error Exc.osError, true⟩
      = Except.error Exc.osError := by
  decide

/-- C7 amended: the deprecated download returns True exactly when both access
checks succeed, download_file raises no exception, and the local file exists
afterwards; otherwise it returns False or, when an SDK call raises an
exception other than ClientError, propagates that exception; a ClientError
never propagates to the caller. -/
theorem deprecated_download_amended (w : Filesystem.DownloadWorld) :
    (Filesystem.download w = Except.ok true ↔
      (w.headBucket = Except.ok () ∧ w.headKey = Except.ok ()
        ∧ w.downloadFile = Except.ok () ∧ w.isfile = true))
    ∧ (Filesystem.download w ≠ Except.ok true →
        Filesystem.download w = Except.ok false
        ∨ ∃ e, Filesystem.download w = Except.error e ∧ e.isClientError = false)
    ∧ ¬ raisedClientError (Filesystem.download w) := by
  have hbt : ∀ h : Except Exc Unit,
      Filesystem.bucket_access h = Except.ok true ↔ h = Except.ok () := by
    intro h
    cases h with
    | ok u => cases u; simp [Filesystem.bucket_access]
    | error e => cases e <;> simp [Filesystem.bucket_access, Exc.isClientError]
  have hkt : ∀ h : Except Exc Unit,
      Filesystem.key_access h = Except.ok true ↔ h = Except.ok () := by
    intro h
    cases h with
    | ok u => cases u; simp [Filesystem.key_access]
    | error e => cases e <;> simp [Filesystem.key_access, Exc.isClientError]
  cases h1 : Filesystem.bucket_access w.headBucket with
  | error e1 =>
      have he1 := bucket_access_error _ _ h1
      have hb1 : w.headBucket ≠ Except.ok () := by
        intro hcon
        rw [hcon] at h1
        simp [Filesystem.bucket_access] at h1
      have hdl : Filesystem.download w = Except.error e1 := by
        simp [Filesystem.download, h1]
      rw [hdl]
      refine ⟨by simp [hb1], fun _ => Or.inr ⟨e1, rfl, he1⟩, ?_⟩
      rintro ⟨s, m, hcon⟩
      cases hcon
      simp [Exc.isClientError] at he1
  | ok f1 =>
      cases h2 : Filesystem.key_access w.headKey with
      | error e2 =>
          have he2 := key_access_error _ _ h2
          have hk2 : w.headKey ≠ Except.ok () := by
            intro hcon
            rw [hcon] at h2
            simp [Filesystem.key_access] at h2
          have hdl : Filesystem.download w = Except.error e2 := by
            simp [Filesystem.download, h1, h2]
          rw [hdl]
          refine ⟨by simp [hk2], fun _ => Or.inr ⟨e2, rfl, he2⟩, ?_⟩
          rintro ⟨s, m, hcon⟩
          cases hcon
          simp [Exc.isClientError] at he2
      | ok f2 =>
          by_cases hff : (f1 && f2) = true
          · obtain ⟨hf1, hf2⟩ : f1 = true ∧ f2 = true := by simpa using hff
            subst hf1
            subst hf2
            have hbeq : w.headBucket = Except.ok () := (hbt _).mp h1
            have hkeq : w.headKey = Except.ok () := (hkt _).mp h2
            cases h3 : w.downloadFile with
            | error e3 =>
                by_cases hc3 : e3.isClientError = true
                · have hdl : Filesystem.download w = Except.ok false := by
                    simp [Filesystem.download, h1, h2, h3, hc3]
                  rw [hdl]
                  exact ⟨by simp [h3], fun _ => Or.inl rfl, by simp [raisedClientError]⟩
                · have hdl : Filesystem.download w = Except.error e3 := by
                    simp [Filesystem.download, h1, h2, h3, hc3]
                  rw [hdl]
                  refine ⟨by simp [h3], fun _ => Or.inr ⟨e3, rfl, by simpa using hc3⟩, ?_⟩
                  rintro ⟨s, m, hcon⟩
                  cases hcon
                  simp [Exc.isClientError] at hc3
            | ok u =>
                cases u
                cases h4 : w.isfile with
                | true =>
                    have hdl : Filesystem.download w = Except.ok true := by
                      simp [Filesystem.download, h1, h2, h3, h4]
                    rw [hdl]
                    exact ⟨by simp [hbeq, hkeq, h3, h4], fun hcon => absurd rfl hcon,
                      by simp [raisedClientError]⟩
                | false =>
                    have hdl : Filesystem.download w = Except.ok false := by
                      simp [Filesystem.download, h1, h2, h3, h4]
                    rw [hdl]
                    exact ⟨by simp [h4], fun _ => Or.inl rfl, by simp [raisedClientError]⟩
          · have hdl : Filesystem.download w = Except.ok false := by
              simp [Filesystem.download, h1, h2, hff]
            have hnb : ¬(w.headBucket = Except.ok () ∧ w.headKey = Except.ok ()
                ∧ w.downloadFile = Except.ok () ∧ w.isfile = true) := by
              rintro ⟨hc1, hc2, -, -⟩
              apply hff
              have hx1 : f1 = true := by
                rw [hc1] at h1
                simpa [Filesystem.bucket_access] using h1
              have hx2 : f2 = true := by
                rw [hc2] at h2
                simpa [Filesystem.key_access] using h2
              simp [hx1, hx2]
            rw [hdl]
            exact ⟨by simp [hnb], fun _ => Or.inl rfl, by simp [raisedClientError]⟩

/-- C7 witness: the characterization evaluated at a world where every call
succeeds and the local file exists, and at a world where download_file raises
a ClientError. -/
theorem deprecated_download_witness :
    Filesystem.download ⟨Except.ok (), Except.ok (), Except.ok (), true⟩ = Except.ok true
    ∧ Filesystem.download
        ⟨Except.ok (), Except.ok (), Except.error (Exc.clientError 404 "gone"), true⟩
      = Except.ok false :=
  ⟨(deprecated_download_amended ⟨Except.ok (), Except.ok (), Except.ok (), true⟩).1.mpr
      ⟨rfl, rfl, rfl, rfl⟩,
   by decide⟩

/-- C8 counterexample: the claim is false as stated. With the source-bucket
check returning False (its head call raises a 403 ClientError) and the
source-key head call raising a BotoCoreError, the deprecated move does not
return abort = True: the BotoCoreError from the second, unconditionally
executed check propagates. move_core is still not invoked. -/
theorem move_preconditions_counterexample :
    Filesystem.bucket_access (Except.error (Exc.clientError 403 "denied")) = Except.ok false
    ∧ (Filesystem.move ⟨Except.error (Exc.clientError 403 "denied"),
        Except.error Exc.botoCoreError, Except.ok (),
        ⟨Except.ok (), Except.ok (), Except.ok ()⟩⟩).result = Except.error Exc.botoCoreError
    ∧ (Filesystem.move ⟨Except.error (Exc.clientError 403 "denied"),
        Except.error Exc.botoCoreError, Except.ok (),
        ⟨Except.ok (), Except.ok (), Except.ok ()⟩⟩).coreCalled = false := by
  decide

/-- C8 amended: move_core is invoked exactly when all three precondition checks
return True; when it is not invoked no upload or delete SDK call is made; and
when some check returns False, move_core is not invoked and move either
returns abort = True or propagates a non-ClientError exception raised by a
later check. -/
theorem move_preconditions_amended (w : Filesystem.MoveWorld) :
    ((Filesystem.move w).coreCalled = true ↔
      (Filesystem.bucket_access w.headSource = Except.ok true
        ∧ Filesystem.key_access w.headSourceKey = Except.ok true
        ∧ Filesystem.bucket_access w.headTarget = Except.ok true))
    ∧ ((Filesystem.move w).coreCalled = false → (Filesystem.move w).deleteCalled = false)
    ∧ ((Filesystem.bucket_access w.headSource = Except.ok false
        ∨ Filesystem.key_access w.headSourceKey = Except.ok false
        ∨ Filesystem.bucket_access w.headTarget = Except.ok false) →
      (Filesystem.move w).coreCalled = false
      ∧ ((Filesystem.move w).result = Except.ok true
          ∨ ∃ e, (Filesystem.move w).result = Except.error e ∧ e.isClientError = false)) := by
  cases h1 : Filesystem.bucket_access w.headSource with
  | error e1 =>
      have he1 := bucket_access_error _ _ h1
      have hmv : Filesystem.move w = ⟨Except.error e1, false, false⟩ := by
        simp [Filesystem.move, h1]
      rw [hmv]
      exact ⟨by simp [h1], fun _ => rfl, fun _ => ⟨rfl, Or.inr ⟨e1, rfl, he1⟩⟩⟩
  | ok f1 =>
      cases h2 : Filesystem.key_access w.headSourceKey with
      | error e2 =>
          have he2 := key_access_error _ _ h2
          have hmv : Filesystem.move w = ⟨Except.error e2, false, false⟩ := by
            simp [Filesystem.move, h1, h2]
          rw [hmv]
          exact ⟨by simp [h2], fun _ => rfl, fun _ => ⟨rfl, Or.inr ⟨e2, rfl, he2⟩⟩⟩
      | ok f2 =>
          cases h3 : Filesystem.bucket_access w.headTarget with
          | error e3 =>
              have he3 := bucket_access_error _ _ h3
              have hmv : Filesystem.move w = ⟨Except.error e3, false, false⟩ := by
                simp [Filesystem.move, h1, h2, h3]
              rw [hmv]
              exact ⟨by simp [h3], fun _ => rfl, fun _ => ⟨rfl, Or.inr ⟨e3, rfl, he3⟩⟩⟩
          | ok f3 =>
              by_cases hf : (f1 && f2 && f3) = true
              · have hfs := hf
                rw [Bool.and_eq_true, Bool.and_eq_true] at hfs
                obtain ⟨⟨hf1, hf2⟩, hf3⟩ := hfs
                subst hf1
                subst hf2
                subst hf3
                have hcc : (Filesystem.move w).coreCalled = true := by
                  cases hmc : (Filesystem.move_core w.core).result <;>
                    simp [Filesystem.move, h1, h2, h3, hmc]
                refine ⟨by simp [hcc, h1, h2, h3], fun hcon => ?_, fun hcon => ?_⟩
                · simp [hcc] at hcon
                · rcases hcon with hcon | hcon | hcon <;> simp_all
              · have hncore : (Filesystem.move w).coreCalled = false := by
                  simp [Filesystem.move, h1, h2, h3, hf]
                have hres : (Filesystem.move w).result = Except.ok true := by
                  simp [Filesystem.move, h1, h2, h3, hf]
                have hdel : (Filesystem.move w).deleteCalled = false := by
                  simp [Filesystem.move, h1, h2, h3, hf]
                have hnall : ¬(f1 = true ∧ f2 = true ∧ f3 = true) := by
                  rintro ⟨hc1, hc2, hc3⟩
                  exact hf (by simp [hc1, hc2, hc3])
                refine ⟨?_, fun _ => hdel, fun _ => ⟨hncore, Or.inl hres⟩⟩
                rw [hncore]
                simp [h1, h2, h3, hnall]

/-- C8 witness: with an inaccessible source bucket (403 ClientError on the head
call) and every other call succeeding, move returns abort = True without
invoking move_core. -/
theorem move_preconditions_witness :
    ((Filesystem.move ⟨Except.error (Exc.clientError 403 "denied"), Except.ok (),
        Except.ok (), ⟨Except.ok (), Except.ok (), Except.ok ()⟩⟩).coreCalled = false
      ∧ ((Filesystem.move ⟨Except.error (Exc.clientError 403 "denied"), Except.ok (),
          Except.ok (), ⟨Except.ok (), Except.ok (), Except.ok ()⟩⟩).result = Except.ok true
        ∨ ∃ e, (Filesystem.move ⟨Except.error (Exc.clientError 403 "denied"), Except.ok (),
            Except.ok (), ⟨Except.ok (), Except.ok (), Except.ok ()⟩⟩).result
              = Except.error e ∧ e.isClientError = false)) :=
  (move_preconditions_amended ⟨Except.error (Exc.clientError 403 "denied"), Except.ok (),
      Except.ok (), ⟨Except.ok (), Except.ok (), Except.ok ()⟩⟩).2.2
    (Or.inl (by decide))

end Claims

section RetryLemmas

open Filesystem

/-- A retry attempt that succeeds ends the loop. -/
theorem retryTrace_ok {α : Type} (pol : Exc → Bool) (body : Nat → Except Exc α)
    (i fuel : Nat) (a : α) (hb : body i = Except.ok a) :
    Filesystem.retryTrace pol body i (fuel + 1) = [Except.ok a] := by
  simp [Filesystem.retryTrace, hb]

/-- A retry attempt that fails non-retriably, or with no attempts left, ends
the loop. -/
theorem retryTrace_stop {α : Type} (pol : Exc → Bool) (body : Nat → Except Exc α)
    (i fuel : Nat) (e : Exc) (hb : body i = Except.error e)
    (h : ¬(pol e = true ∧ 0 < fuel)) :
    Filesystem.retryTrace pol body i (fuel + 1) = [Except.error e] := by
  simp [Filesystem.retryTrace, hb, h]

/-- A retry attempt that fails retriably with attempts remaining is followed by
the next attempt. -/
theorem retryTrace_retry {α : Type} (pol : Exc → Bool) (body : Nat → Except Exc α)
    (i fuel : Nat) (e : Exc) (hb : body i = Except.error e)
    (hp : pol e = true) (hf : 0 < fuel) :
    Filesystem.retryTrace pol body i (fuel + 1)
      = Except.error e :: Filesystem.retryTrace pol body (i + 1) fuel := by
  simp [Filesystem.retryTrace, hb, hp, hf]

/-- A retry trace never contains more attempts than the attempt cap. -/
theorem retryTrace_length_le {α : Type} (pol : Exc → Bool) (body : Nat → Except Exc α) :
    ∀ fuel i, (Filesystem.retryTrace pol body i fuel).length ≤ fuel := by
  intro fuel
  induction fuel with
  | zero => intro i; simp [Filesystem.retryTrace]
  | succ f ih =>
      intro i
      cases hb : body i with
      | ok a =>
          rw [retryTrace_ok pol body i f a hb]
          simp
      | error e =>
          by_cases hc : pol e = true ∧ 0 < f
          · rw [retryTrace_retry pol body i f e hb hc.1 hc.2]
            simp only [List.length_cons]
            have := ih (i + 1)
            omega
          · rw [retryTrace_stop pol body i f e hb hc]
            simp

/-- A retry loop with a positive attempt budget executes at least one attempt. -/
theorem retryTrace_length_pos {α : Type} (pol : Exc → Bool) (body : Nat → Except Exc α)
    (i fuel : Nat) (h : 0 < fuel) : 0 < (Filesystem.retryTrace pol body i fuel).length := by
  cases fuel with
  | zero => exact absurd h (by omega)
  | succ f =>
      cases hb : body i with
      | ok a =>
          rw [retryTrace_ok pol body i f a hb]
          simp
      | error e =>
          by_cases hc : pol e = true ∧ 0 < f
          · rw [retryTrace_retry pol body i f e hb hc.1 hc.2]
            simp
          · rw [retryTrace_stop pol body i f e hb hc]
            simp

/-- Every attempt of a retry trace other than the last one failed with an
exception the policy retries. -/
theorem retryTrace_mid {α : Type} (pol : Exc → Bool) (body : Nat → Except Exc α) :
    ∀ fuel i j, j + 1 < (Filesystem.retryTrace pol body i fuel).length →
      ∃ e, (Filesystem.retryTrace pol body i fuel)[j]? = some (Except.error e)
        ∧ pol e = true := by
  intro fuel
  induction fuel with
  | zero => intro i j h; simp [Filesystem.retryTrace] at h
  | succ f ih =>
      intro i j h
      cases hb : body i with
      | ok a =>
          rw [retryTrace_ok pol body i f a hb] at h
          simp at h
      | error e =>
          by_cases hc : pol e = true ∧ 0 < f
          · rw [retryTrace_retry pol body i f e hb hc.1 hc.2] at h ⊢
            cases j with
            | zero => exact ⟨e, by simp, hc.1⟩
            | succ j2 =>
                have h2 : j2 + 1 < (Filesystem.retryTrace pol body (i + 1) f).length := by
                  simp only [List.length_cons] at h
                  omega
                obtain ⟨e2, he2, hpe2⟩ := ih (i + 1) j2 h2
                exact ⟨e2, by simpa using he2, hpe2⟩
          · rw [retryTrace_stop pol body i f e hb hc] at h
            simp at h

/-- While a retriable failure occurs and attempts remain, the retry loop
executes the next attempt. -/
theorem retryTrace_cont {α : Type} (pol : Exc → Bool) (body : Nat → Except Exc α) :
    ∀ fuel i j e, j + 1 < fuel →
      (Filesystem.retryTrace pol body i fuel)[j]? = some (Except.error e) → pol e = true →
      j + 1 < (Filesystem.retryTrace pol body i fuel).length := by
  intro fuel
  induction fuel with
  | zero =>
      intro i j e hj _ _
      exact absurd hj (by omega)
  | succ f ih =>
      intro i j e hj hget hp
      cases hb : body i with
      | ok a =>
          rw [retryTrace_ok pol body i f a hb] at hget
          cases j with
          | zero => simp at hget
          | succ j2 => simp at hget
      | error e0 =>
          by_cases hc : pol e0 = true ∧ 0 < f
          · rw [retryTrace_retry pol body i f e0 hb hc.1 hc.2] at hget ⊢
            cases j with
            | zero =>
                have hpos : 0 < (Filesystem.retryTrace pol body (i + 1) f).length :=
                  retryTrace_length_pos pol body (i + 1) f hc.2
                simp only [List.length_cons]
                omega
            | succ j2 =>
                have hget2 : (Filesystem.retryTrace pol body (i + 1) f)[j2]?
                    = some (Except.error e) := by
                  simpa using hget
                have hj2 : j2 + 1 < f := by omega
                have := ih (i + 1) j2 e hj2 hget2 hp
                simp only [List.length_cons]
                omega
          · rw [retryTrace_stop pol body i f e0 hb hc] at hget
            cases j with
            | zero =>
                simp at hget
                subst hget
                exact absurd ⟨hp, by omega⟩ hc
            | succ j2 => simp at hget

/-- The retry condition of the library accepts exactly the osError exception
(IOError and OSError are the same class in Python 3). -/
theorem retriesOnOsError_iff (e : Exc) :
    Filesystem.retriesOnOsError e = true ↔ e = Exc.osError := by
  cases e <;> simp [Filesystem.retriesOnOsError]

end RetryLemmas

section ClaimsRetry

open Filesystem

/-- C2: each retry-wrapped S3 helper retries only on a single exception type
with a fixed attempt cap: s3_download and s3_move execute their body at most
3 times, s3_upload at most 2 times; every executed attempt other than the
last failed with an IOError (which in Python 3 is OSError), so no other
exception type ever triggers a retry; and while an attempt fails with that
exception and the cap is not reached, the next attempt is executed. -/
theorem retry_policy_caps (wsD : Nat → Filesystem.S3DlWorld)
    (wsU : Nat → Except Exc Unit) (wsM : Nat → Filesystem.S3MoveWorld) :
    ((Filesystem.s3_downloadAttempts wsD).length ≤ 3
      ∧ (∀ j, j + 1 < (Filesystem.s3_downloadAttempts wsD).length →
          (Filesystem.s3_downloadAttempts wsD)[j]? = some (Except.error Exc.osError))
      ∧ (∀ j e, j + 1 < 3 →
          (Filesystem.s3_downloadAttempts wsD)[j]? = some (Except.error e) →
          e = Exc.osError → j + 1 < (Filesystem.s3_downloadAttempts wsD).length))
    ∧ ((Filesystem.s3_uploadAttempts wsU).length ≤ 2
      ∧ (∀ j, j + 1 < (Filesystem.s3_uploadAttempts wsU).length →
          (Filesystem.s3_uploadAttempts wsU)[j]? = some (Except.error Exc.osError))
      ∧ (∀ j e, j + 1 < 2 →
          (Filesystem.s3_uploadAttempts wsU)[j]? = some (Except.error e) →
          e = Exc.osError → j + 1 < (Filesystem.s3_uploadAttempts wsU).length))
    ∧ ((Filesystem.s3_moveAttempts wsM).length ≤ 3
      ∧ (∀ j, j + 1 < (Filesystem.s3_moveAttempts wsM).length →
          (Filesystem.s3_moveAttempts wsM)[j]? = some (Except.error Exc.osError))
      ∧ (∀ j e, j + 1 < 3 →
          (Filesystem.s3_moveAttempts wsM)[j]? = some (Except.error e) →
          e = Exc.osError → j + 1 < (Filesystem.s3_moveAttempts wsM).length)) := by
  refine ⟨⟨?_, ?_, ?_⟩, ⟨?_, ?_, ?_⟩, ⟨?_, ?_, ?_⟩⟩
  · exact retryTrace_length_le _ _ 3 0
  · intro j hj
    obtain ⟨e, he, hpe⟩ := retryTrace_mid _ _ 3 0 j hj
    rw [(retriesOnOsError_iff e).mp hpe] at he
    exact he
  · intro j e hj hget hee
    exact retryTrace_cont _ _ 3 0 j e hj hget (by rw [hee]; rfl)
  · exact retryTrace_length_le _ _ 2 0
  · intro j hj
    obtain ⟨e, he, hpe⟩ := retryTrace_mid _ _ 2 0 j hj
    rw [(retriesOnOsError_iff e).mp hpe] at he
    exact he
  · intro j e hj hget hee
    exact retryTrace_cont _ _ 2 0 j e hj hget (by rw [hee]; rfl)
  · exact retryTrace_length_le _ _ 3 0
  · intro j hj
    obtain ⟨e, he, hpe⟩ := retryTrace_mid _ _ 3 0 j hj
    rw [(retriesOnOsError_iff e).mp hpe] at he
    exact he
  · intro j e hj hget hee
    exact retryTrace_cont _ _ 3 0 j e hj hget (by rw [hee]; rfl)

/-- C2 witness: on a run whose first s3_download attempt raises IOError and
whose second succeeds, the executed non-final attempt is the IOError one;
and the caps hold on concrete all-failing upload and move runs. -/
theorem retry_policy_caps_witness :
    (Filesystem.s3_downloadAttempts
        (fun i => if i = 0 then ⟨Except.error Exc.osError, true⟩ else ⟨Except.ok (), true⟩))[0]?
      = some (Except.error Exc.osError)
    ∧ (Filesystem.s3_uploadAttempts (fun _ => Except.error Exc.osError)).length ≤ 2
    ∧ (Filesystem.s3_moveAttempts
        (fun _ => ⟨Except.ok (), Except.ok (), Except.error Exc.osError⟩)).length ≤ 3 :=
  ⟨(retry_policy_caps
      (fun i => if i = 0 then ⟨Except.error Exc.osError, true⟩ else ⟨Except.ok (), true⟩)
      (fun _ => Except.error Exc.osError)
      (fun _ => ⟨Except.ok (), Except.ok (), Except.error Exc.osError⟩)).1.2.1 0 (by decide),
   (retry_policy_caps
      (fun i => if i = 0 then ⟨Except.error Exc.osError, true⟩ else ⟨Except.ok (), true⟩)
      (fun _ => Except.error Exc.osError)
      (fun _ => ⟨Except.ok (), Except.ok (), Except.error Exc.osError⟩)).2.1.1,
   (retry_policy_caps
      (fun i => if i = 0 then ⟨Except.error Exc.osError, true⟩ else ⟨Except.ok (), true⟩)
      (fun _ => Except.error Exc.osError)
      (fun _ => ⟨Except.ok (), Except.ok (), Except.error Exc.osError⟩)).2.2.1⟩

end ClaimsRetry

section Base64Lemmas

/-- Decoding a base64 alphabet character recovers the sextet it encodes. -/
theorem decChar_encChar : ∀ n, n < 64 → B64.decChar (B64.encChar n) = n := by
  decide

/-- No sextet encodes to the padding character. -/
theorem encChar_ne_pad : ∀ n, n < 64 → B64.encChar n ≠ 61 := by
  decide

end Base64Lemmas

section ClaimsB64

/-- C10: decode_b64 is a left inverse of standard base64 encoding: for every
byte string b, decode_b64 applied to the base64 encoding of b returns b. -/
theorem decode_b64_leftInverse (b : List Nat) (hb : ∀ x ∈ b, x < 256) :
    Sqs.decode_b64 (B64.b64encode b) = b := by
  unfold Sqs.decode_b64
  induction b using B64.b64encode.induct with
  | case1 b1 b2 b3 rest ih =>
      have h1 : b1 < 256 := hb b1 (by simp)
      have h2 : b2 < 256 := hb b2 (by simp)
      have h3 : b3 < 256 := hb b3 (by simp)
      have hir := ih (fun x hx => hb x (by simp [hx]))
      rw [B64.b64encode, B64.b64decode]
      rw [if_neg (encChar_ne_pad (b2 % 16 * 4 + b3 / 64) (by omega))]
      rw [if_neg (encChar_ne_pad (b3 % 64) (by omega))]
      rw [hir]
      rw [decChar_encChar (b1 / 4) (by omega)]
      rw [decChar_encChar (b1 % 4 * 16 + b2 / 16) (by omega)]
      rw [decChar_encChar (b2 % 16 * 4 + b3 / 64) (by omega)]
      rw [decChar_encChar (b3 % 64) (by omega)]
      simp only [List.cons.injEq]
      refine ⟨by omega, by omega, by omega, trivial⟩
  | case2 b1 b2 =>
      have h1 : b1 < 256 := hb b1 (by simp)
      have h2 : b2 < 256 := hb b2 (by simp)
      rw [B64.b64encode, B64.b64decode]
      rw [if_neg (encChar_ne_pad (b2 % 16 * 4) (by omega))]
      rw [if_pos rfl]
      rw [decChar_encChar (b1 / 4) (by omega)]
      rw [decChar_encChar (b1 % 4 * 16 + b2 / 16) (by omega)]
      rw [decChar_encChar (b2 % 16 * 4) (by omega)]
      simp only [List.cons.injEq]
      refine ⟨by omega, by omega, trivial⟩
  | case3 b1 =>
      have h1 : b1 < 256 := hb b1 (by simp)
      rw [B64.b64encode, B64.b64decode]
      rw [if_pos rfl]
      rw [decChar_encChar (b1 / 4) (by omega)]
      rw [decChar_encChar (b1 % 4 * 16) (by omega)]
      simp only [List.cons.injEq]
      refine ⟨by omega, trivial⟩
  | case4 => rfl

/-- C10 witness: the round trip evaluated on a concrete five-byte string, which
exercises both a full three-byte group and a two-byte final group. -/
theorem decode_b64_leftInverse_witness :
    Sqs.decode_b64 (B64.b64encode [72, 105, 33, 0, 255]) = [72, 105, 33, 0, 255] :=
  decode_b64_leftInverse [72, 105, 33, 0, 255] (by decide)

end ClaimsB64

end AwsUtils
